import Mathlib

/-!
Shallow embedding of the SkyFunnel warmup service core
(src/index.ts, src/helpers/{redis,sqs,spamChecker,nodemailer,gmailApi}.ts).

JavaScript-specific semantics (parseInt, `||` defaulting, `String.includes`,
`toLowerCase`) are modelled explicitly so that branch conditions of the
source translate faithfully.
-/

/-- Result of JavaScript `parseInt`: either NaN or an integer. -/
inductive JSNum where
  | nan : JSNum
  | num : Int → JSNum
deriving DecidableEq, Repr

/-- JavaScript `parseInt(s)` (radix 10): skip leading whitespace, optional
sign, then the longest digit run; no digits gives NaN. -/
def jsParseInt (s : String) : JSNum :=
  let cs := s.toList.dropWhile (fun c => c.isWhitespace)
  let signedTail : Int × List Char :=
    match cs with
    | '-' :: rest => (-1, rest)
    | '+' :: rest => (1, rest)
    | _ => (1, cs)
  let ds := signedTail.2.takeWhile (fun c => c.isDigit)
  if ds.isEmpty then JSNum.nan
  else JSNum.num (signedTail.1 * ((ds.foldl (fun a c => a * 10 + (c.toNat - 48)) 0 : Nat) : Int))

/-- JavaScript `receiveCount >= 2` where `receiveCount` came from `parseInt`
(a NaN comparison is false). -/
def jsGe2 : JSNum → Bool
  | JSNum.nan => false
  | JSNum.num n => decide (2 ≤ n)

/-- JavaScript `receiveCount || 1`: NaN and 0 are falsy. -/
def jsOr1 : JSNum → Int
  | JSNum.nan => 1
  | JSNum.num n => if n = 0 then 1 else n

/-- JavaScript string `||` defaulting: `undefined` and the empty string are
falsy. -/
def jsOrString (v : Option String) (dflt : String) : String :=
  match v with
  | none => dflt
  | some s => if s = "" then dflt else s

/-- JavaScript `s.includes(pat)`: substring test. -/
def jsIncludes (s pat : String) : Bool :=
  (List.range (s.toList.length + 1)).any
    (fun i => pat.toList.isPrefixOf (s.toList.drop i))

/-- The wire payload of a queue message after zod validation
(`EmailSchema` in src/index.ts, batch revision). -/
structure WarmupRequest where
  «to» : String
  originalSubject : String
  body : String
  keyword : String
  warmupId : String
  referenceId : Option String
  inReplyTo : Option String
  replyFrom : String
  customMailId : String
  shouldReply : Bool
  scheduledFor : Option Int
deriving DecidableEq, Repr

/-- An SQS message as seen by the worker (`SQSMessage` in src/helpers/sqs.ts);
the body is kept as the raw string, its parse outcome is supplied by the
environment. -/
structure SQSMessage where
  Body : String
  ReceiptHandle : String
  approximateReceiveCount : Option String
deriving DecidableEq, Repr

/-- `getMessageReceiveCount` (src/helpers/sqs.ts):
`parseInt(message.Attributes?.ApproximateReceiveCount || "0")`. -/
def getMessageReceiveCount (m : SQSMessage) : JSNum :=
  jsParseInt (jsOrString m.approximateReceiveCount ("0"))

/-- `delayMessageInQueue` caps the requested delay at the SQS maximum of
900 seconds (src/helpers/sqs.ts, `actualDelay`). -/
def delayMessageInQueueDelay (delaySeconds : Int) : Int :=
  min delaySeconds 900

/-- A batch entry as stored in the hour bucket (`messageData` built in
`addMessageToBatch`, src/index.ts). -/
structure BatchEntry where
  «to» : String
  originalSubject : String
  body : String
  keyword : String
  warmupId : String
  referenceId : Option String
  inReplyTo : Option String
  replyFrom : String
  customMailId : String
  shouldReply : Bool
  receiptHandle : String
  addedAt : Int
  receiveCount : JSNum
deriving DecidableEq, Repr

/-- Build the `messageData` record stored in the bucket. -/
def mkBatchEntry (r : WarmupRequest) (handle : String) (now : Int) (rc : JSNum) : BatchEntry :=
  { «to» := r.«to», originalSubject := r.originalSubject, body := r.body,
    keyword := r.keyword, warmupId := r.warmupId, referenceId := r.referenceId,
    inReplyTo := r.inReplyTo, replyFrom := r.replyFrom,
    customMailId := r.customMailId, shouldReply := r.shouldReply,
    receiptHandle := handle, addedAt := now, receiveCount := rc }

/-- Externally visible queue / store / mail actions, recorded as a trace. -/
inductive QueueAction where
  | deleteMsg : String → QueueAction
  | hide12h : String → QueueAction
  | requeue : String → Int → QueueAction
  | insertBatch : String → BatchEntry → QueueAction
  | attemptSend : String → QueueAction
  | logReplied : String → String → QueueAction
  | smtpSend : String → Nat → QueueAction
  | markBlockedAction : String → QueueAction
  | markCooldownAction : String → QueueAction
deriving DecidableEq, Repr

/-- The hour bucket: a redis hash, field name to stored JSON array of
entries (src/helpers/redis.ts keeps one array per field). -/
abbrev Bucket : Type := List (String × List BatchEntry)

/-- Read a hash field of the bucket (`redis.hget`); a missing field gives
the empty array (the `existingData` fallback). -/
def bucketField : Bucket → String → List BatchEntry
  | [], _ => []
  | p :: rest, field => if p.1 = field then p.2 else bucketField rest field

/-- Write a hash field of the bucket (`redis.hset`): overwrite the field if
present, otherwise create it. -/
def bucketSet : Bucket → String → List BatchEntry → Bucket
  | [], field, v => [(field, v)]
  | p :: rest, field, v =>
    if p.1 = field then (field, v) :: rest else p :: bucketSet rest field v

/-- `addEmailToBatch` (src/helpers/redis.ts lines 115-155): reads the array
stored under the field named by the sender address, appends `messageData`,
writes it back, refreshes the TTL and returns `true`. -/
def addEmailToBatch (b : Bucket) (email : String) (messageData : BatchEntry) :
    Bool × Bucket :=
  let existing := bucketField b email
  let messages := existing ++ [messageData]
  (true, bucketSet b email messages)

/-- Ingest `k` copies of the same message for the same sender
(`addEmailToBatch` applied `k` times). -/
def addEmailToBatchK (email : String) (e : BatchEntry) : Nat → Bucket
  | 0 => []
  | Nat.succ k => (addEmailToBatch (addEmailToBatchK email e k) email e).2

/-- Outcome of `JSON.parse` followed by `EmailSchema.parse` on a message
body: a JSON error (first catch of `addMessageToBatch`), a zod failure
(outer catch), or a validated request. -/
inductive ParseOutcome where
  | jsonError : ParseOutcome
  | schemaError : ParseOutcome
  | ok : WarmupRequest → ParseOutcome
deriving DecidableEq, Repr

/-- Environment of one ingest-loop invocation: the clock, the redis flag
lookups, and whether the SQS `SendMessage` of a delayed copy succeeds. -/
structure IngestEnv where
  now : Int
  inCooldown : String → Bool
  blocked : String → Bool
  requeueOk : Bool

/-- Admission tail of `addMessageToBatch` (src/index.ts lines 236-285):
cooldown check, block check, then the bucket insert.  The result of the
insert is not inspected by the source and no queue action follows it. -/
def admitMessage (env : IngestEnv) (m : SQSMessage) (r : WarmupRequest)
    (receiveCount : JSNum) : List QueueAction :=
  if env.inCooldown r.replyFrom then
    if jsGe2 receiveCount then [QueueAction.deleteMsg m.ReceiptHandle]
    else [QueueAction.hide12h m.ReceiptHandle]
  else if env.blocked r.replyFrom then
    [QueueAction.deleteMsg m.ReceiptHandle]
  else
    [QueueAction.insertBatch r.replyFrom
      (mkBatchEntry r m.ReceiptHandle env.now receiveCount)]

/-- `addMessageToBatch` (src/index.ts lines 168-302) as its trace of queue
and store actions.  `scheduledFor && scheduledFor > Date.now()` makes the
value 0 falsy; the scheduled branch requeues the raw body via
`delayMessageInQueue` and deletes the original only when that send
succeeded. -/
def addMessageToBatch (env : IngestEnv) (parse : String → ParseOutcome)
    (m : SQSMessage) : List QueueAction :=
  let receiveCount := getMessageReceiveCount m
  match parse m.Body with
  | ParseOutcome.jsonError => [QueueAction.deleteMsg m.ReceiptHandle]
  | ParseOutcome.schemaError => []
  | ParseOutcome.ok r =>
    match r.scheduledFor with
    | some s =>
      if s ≠ 0 ∧ env.now < s then
        let delaySeconds := min ((s - env.now) / 1000) 900
        if env.requeueOk then
          [QueueAction.requeue m.Body (delayMessageInQueueDelay delaySeconds),
           QueueAction.deleteMsg m.ReceiptHandle]
        else
          [QueueAction.requeue m.Body (delayMessageInQueueDelay delaySeconds)]
      else admitMessage env m r receiveCount
    | none => admitMessage env m r receiveCount

/-- A message in an IMAP mailbox folder as far as the spam checker looks at
it: UID, envelope subject, and the `\Seen` flag. -/
structure MailMessage where
  uid : Nat
  subject : String
  seen : Bool
deriving DecidableEq, Repr

/-- The sender-side mailbox: spam folder and inbox contents. -/
structure Mailbox where
  spam : List MailMessage
  inbox : List MailMessage
deriving DecidableEq, Repr

/-- `client.search({header: {Subject: tag}, seen: false})` on the locked
spam folder: unseen messages whose subject contains the tag. -/
def spamSearch (box : Mailbox) (subjectTag : String) : List MailMessage :=
  box.spam.filter (fun m => jsIncludes m.subject subjectTag && !m.seen)

/-- `markAllEmailAsRead` (src/helpers/spamChecker.ts lines 19-35):
`messageFlagsAdd({seen: false}, ["\\Seen"])` adds `\Seen` to every unseen
message of the locked (spam) folder. -/
def markAllEmailAsRead (box : Mailbox) : Mailbox :=
  { box with spam := box.spam.map (fun m =>
      if !m.seen then { m with seen := true } else m) }

/-- `checkEmailInSpam` (src/helpers/spamChecker.ts lines 58-217) acting on
the mailbox: search the spam folder, return early when nothing matched,
otherwise fold the fetch iterator (`inSpam` is overwritten by every fetched
envelope, last one wins) and mark all unseen spam-folder mail read.  No
message is moved between folders. -/
def checkEmailInSpamRun (box : Mailbox) (subjectTag : String) : Bool × Mailbox :=
  let searchResult := spamSearch box subjectTag
  if searchResult.isEmpty then (false, box)
  else
    let inSpam := searchResult.foldl
      (fun _ m => jsIncludes m.subject subjectTag) false
    (inSpam, markAllEmailAsRead box)

/-- Which step of a `checkEmailInSpam` run fails, if any, and whether the
`client.logout()` race in the `finally` block settles successfully within
its 5-second watchdog. -/
structure ImapRunEnv where
  connectOk : Bool
  lockOk : Bool
  searchOk : Bool
  foundMatch : Bool
  logoutOk : Bool
deriving DecidableEq, Repr

/-- Control flow of `checkEmailInSpam` (src/helpers/spamChecker.ts lines
86-216) with respect to raised errors: connect and lock errors land in the
outer catch (`inSpam = false`), search/fetch errors in the inner catch
(`inSpam = false`); then the `finally` block awaits
`Promise.race([client.logout(), 5s timeout])` *before* its `return inSpam`,
so a logout failure or watchdog timeout rejects the whole call. -/
def checkEmailInSpamOutcome (env : ImapRunEnv) : Except String Bool :=
  let inSpam :=
    if env.connectOk = false then false
    else if env.lockOk = false then false
    else if env.searchOk = false then false
    else env.foundMatch
  if env.logoutOk then Except.ok inSpam else Except.error ("Timed out")

/-- JavaScript `s.toLowerCase()` (ASCII range, which covers every pattern
the source compares against). -/
def jsToLower (s : String) : String :=
  String.mk (s.toList.map Char.toLower)

/-- Substring-driven auth classification shared by `sendEmail` and
`CheckAndUpdateSpamInDb`: `error.toString().toLowerCase()` against the six
patterns. -/
def isAuthError (errMsg : String) : Bool :=
  let m := jsToLower errMsg
  jsIncludes m ("authentication") || jsIncludes m ("invalid credentials") ||
  jsIncludes m ("login failed") || jsIncludes m ("auth") ||
  jsIncludes m ("535") || jsIncludes m ("534")

/-- Return value of `CheckAndUpdateSpamInDb`. -/
structure SpamCheckResult where
  shouldContinue : Bool
  reason : Option String
deriving DecidableEq, Repr

/-- `CheckAndUpdateSpamInDb` (src/helpers/spamChecker.ts lines 226-311):
guard on missing inputs, guard on missing credentials, then either the spam
check resolves (any boolean gives `shouldContinue = true`) or the caught
error is classified; the auth branch returns the reason string
"Authentication failure" (capital A). -/
def CheckAndUpdateSpamInDb (customId : String) (replyEmail : Option String)
    (credentialsFound : Bool) (spamCheck : Except String Bool) : SpamCheckResult :=
  if customId = "" ∨ jsOrString replyEmail ("") = "" then
    { shouldContinue := false, reason := some ("Missing customId or replyEmail") }
  else if credentialsFound = false then
    { shouldContinue := false, reason := some ("Email credentials not found") }
  else
    match spamCheck with
    | Except.ok _ => { shouldContinue := true, reason := none }
    | Except.error e =>
      if isAuthError e then
        { shouldContinue := false, reason := some ("Authentication failure") }
      else
        { shouldContinue := false, reason := some ("General error occurred") }

/-- The guard of the auth cleanup branch in `processBatchedEmails`
(src/index.ts lines 357-360): `reason?.includes("authentication failure")
|| reason?.includes("cooldown list")` — a case-sensitive substring test. -/
def reasonMatchesAuth (reason : Option String) : Bool :=
  match reason with
  | none => false
  | some s => jsIncludes s ("authentication failure") || jsIncludes s ("cooldown list")

/-- Per-entry cleanup inside that auth branch (src/index.ts lines 365-379):
`receiveCount || 1`, delete when at least 2, otherwise hide for 12 hours. -/
def authFailureEntryAction (e : BatchEntry) : QueueAction :=
  if 2 ≤ jsOr1 e.receiveCount then QueueAction.deleteMsg e.receiptHandle
  else QueueAction.hide12h e.receiptHandle

/-- One sender's turn of `processBatchedEmails` (src/index.ts lines
320-437) as a trace plus the "pushed to `processedEmails`" flag: blocked
senders get all handles deleted; a failed spam check enters cleanup only
when `reasonMatchesAuth`; otherwise every entry is attempted in order —
a failed send leaves its handle alone and the loop continues with the next
entry. -/
def processSender (blockedNow : Bool) (spamResult : SpamCheckResult)
    (sendOk : BatchEntry → Bool) (entries : List BatchEntry) :
    List QueueAction × Bool :=
  if blockedNow then
    (entries.map (fun e => QueueAction.deleteMsg e.receiptHandle), true)
  else if spamResult.shouldContinue = false then
    if reasonMatchesAuth spamResult.reason then
      (entries.map authFailureEntryAction, true)
    else
      ([], false)
  else
    (entries.flatMap (fun e =>
      if e.shouldReply then
        QueueAction.attemptSend e.«to» ::
          (if sendOk e then
            [QueueAction.logReplied e.warmupId e.«to»,
             QueueAction.deleteMsg e.receiptHandle]
          else [])
      else [QueueAction.deleteMsg e.receiptHandle]), true)

/-- Outcome of one `transport.sendMail` attempt. -/
inductive SmtpOutcome where
  | success : SmtpOutcome
  | failure : String → SmtpOutcome
deriving DecidableEq, Repr

/-- The SMTP retry loop of `sendEmail` (src/helpers/nodemailer.ts lines
167-244), fuelled by the remaining attempts (`maxRetries = 2`).  Every
attempt is recorded; an auth-classified error stops retrying and returns
`false`; no path touches the cooldown store — the source's auth branch only
logs and returns. -/
def sendEmailSMTPGo (outcome : Nat → SmtpOutcome) («to» : String) :
    Nat → Nat → Bool × List QueueAction
  | _, 0 => (false, [])
  | attempt, Nat.succ fuel =>
    match outcome attempt with
    | SmtpOutcome.success => (true, [QueueAction.smtpSend «to» attempt])
    | SmtpOutcome.failure msg =>
      if isAuthError msg then (false, [QueueAction.smtpSend «to» attempt])
      else
        let rest := sendEmailSMTPGo outcome «to» (attempt + 1) fuel
        (rest.1, QueueAction.smtpSend «to» attempt :: rest.2)

/-- `sendEmail` on its SMTP path: attempts start at 1 with `maxRetries = 2`. -/
def sendEmailViaSMTP (outcome : Nat → SmtpOutcome) («to» : String) :
    Bool × List QueueAction :=
  sendEmailSMTPGo outcome «to» 1 2

/-- The nodemailer message built by `sendEmail`
(src/helpers/nodemailer.ts lines 169-176). -/
structure MailOptions where
  «from» : String
  «to» : String
  subject : String
  text : String
  references : String
  inReplyTo : String
deriving DecidableEq, Repr

/-- `mailOptions` of the SMTP path: `from = replyFrom`, `subject = "Re: " +
subject`, `text = body`, threading headers passed through. -/
def smtpMailOptions («to» subject body inReplyTo referenceId replyFrom : String) :
    MailOptions :=
  { «from» := replyFrom, «to» := «to», subject := "Re: " ++ subject,
    text := body, references := referenceId, inReplyTo := inReplyTo }

/-- `GmailApiService`'s `fromEmail`: `credentials.emailId || "me"`. -/
def gmailFromEmail (emailId : Option String) : String :=
  jsOrString emailId ("me")

/-- The RFC-2822 lines of `GmailApiService.sendReply`
(src/helpers/gmailApi.ts lines 235-244); the threading headers are emitted
only for truthy (non-empty) values. -/
def gmailSendReplyLines (fromEmail «to» subject body inReplyTo references : String) :
    List String :=
  [("To: " ++ «to»), ("From: " ++ fromEmail), ("Subject: Re: " ++ subject)]
    ++ (if inReplyTo ≠ "" then [("In-Reply-To: " ++ inReplyTo)] else [])
    ++ (if references ≠ "" then [("References: " ++ references)] else [])
    ++ [("Content-Type: text/plain; charset=utf-8"), (""), body]

/-- A representative validated warmup request. -/
def sampleRequest : WarmupRequest :=
  { «to» := "b@y.com", originalSubject := "Hello there", body := "Nice to hear",
    keyword := "kw", warmupId := "w1", referenceId := some ("<ref-1>"),
    inReplyTo := some ("<msg-1>"), replyFrom := "a@x.com",
    customMailId := "TAG42", shouldReply := true, scheduledFor := none }

/-- A representative queue message on its first delivery. -/
def sampleMessage : SQSMessage :=
  { Body := "json1", ReceiptHandle := "rh-1",
    approximateReceiveCount := some ("1") }

/-- A queue message whose `ApproximateReceiveCount` attribute is absent. -/
def sampleMessageNoAttr : SQSMessage :=
  { Body := "json2", ReceiptHandle := "rh-2", approximateReceiveCount := none }

/-- The batch entry built from `sampleRequest` at time 1000, receive count 1. -/
def sampleEntry : BatchEntry :=
  mkBatchEntry sampleRequest ("rh-1") 1000 (JSNum.num 1)

/-- A second entry of the same sender towards another recipient. -/
def sampleEntry2 : BatchEntry :=
  { sampleEntry with «to» := "c@z.com", receiptHandle := "rh-3" }

/-- Parse environment that yields `sampleRequest` for every body. -/
def sampleParse : String → ParseOutcome :=
  fun _ => ParseOutcome.ok sampleRequest

/-- Ingest environment with no cooldown, no block, requeue succeeding. -/
def sampleIngestEnvAdmit : IngestEnv :=
  { now := 1000, inCooldown := fun _ => false, blocked := fun _ => false,
    requeueOk := true }

/-- Ingest environment where every sender is in the 2-day cooldown list. -/
def cooldownEnv : IngestEnv :=
  { now := 1000, inCooldown := fun _ => true, blocked := fun _ => false,
    requeueOk := true }

/-- An SMTP world whose every attempt fails with a 535 auth rejection. -/
def authOutcome : Nat → SmtpOutcome :=
  fun _ => SmtpOutcome.failure ("535 Authentication credentials invalid")

/-- The spam folder holds one unseen message carrying the tag and one
unseen unrelated message; the inbox is empty. -/
def sampleBox : Mailbox :=
  { spam := [{ uid := 1, subject := "Warmup TAG42 hello", seen := false },
             { uid := 2, subject := "Unrelated offer", seen := false }],
    inbox := [] }

/-- A request scheduled for the future (timestamp 1 200 000 ms). -/
def schedRequest : WarmupRequest :=
  { sampleRequest with scheduledFor := some 1200000 }

/-- Parse environment that yields `schedRequest` for every body. -/
def schedParse : String → ParseOutcome :=
  fun _ => ParseOutcome.ok schedRequest

/-- Whether a promise settled with a boolean rather than a rejection. -/
def resolvesToBool (r : Except String Bool) : Bool :=
  match r with
  | Except.ok _ => true
  | Except.error _ => false

/-- An IMAP run in which every step succeeds but the logout race loses to
the 5-second watchdog. -/
def logoutTimeoutEnv : ImapRunEnv :=
  { connectOk := true, lockOk := true, searchOk := true, foundMatch := true,
    logoutOk := false }

/-- An IMAP run whose connection (authentication) fails but whose logout
settles. -/
def connectFailEnv : ImapRunEnv :=
  { connectOk := false, lockOk := true, searchOk := true, foundMatch := true,
    logoutOk := true }

/-- Setting a hash field and reading it back gives the written value. -/
theorem bucketField_bucketSet (b : Bucket) (f : String) (v : List BatchEntry) :
    bucketField (bucketSet b f v) f = v := by
  induction b with
  | nil => simp [bucketSet, bucketField]
  | cons p rest ih =>
    by_cases h : p.1 = f
    · simp [bucketSet, bucketField, h]
    · simp [bucketSet, bucketField, h, ih]

/-- The cooldown branch of `addMessageToBatch`: a validated, unscheduled
message whose sender is in the cooldown list is deleted or hidden by its
receive count. -/
theorem addMessageToBatch_cooldown_aux (env : IngestEnv)
    (parse : String → ParseOutcome) (m : SQSMessage) (r : WarmupRequest)
    (hp : parse m.Body = ParseOutcome.ok r)
    (hs : ∀ s, r.scheduledFor = some s → ¬(s ≠ 0 ∧ env.now < s))
    (hc : env.inCooldown r.replyFrom = true) :
    addMessageToBatch env parse m =
      if jsGe2 (getMessageReceiveCount m) then [QueueAction.deleteMsg m.ReceiptHandle]
      else [QueueAction.hide12h m.ReceiptHandle] := by
  unfold addMessageToBatch
  rw [hp]
  dsimp only
  cases hsf : r.scheduledFor with
  | none => simp [admitMessage, hc]
  | some s =>
    have hn := hs s hsf
    simp [hn, admitMessage, hc]

/-- C1 (counterexample): ingesting the same `(replyFrom, to)` message twice
into an empty hour bucket leaves TWO entries under the sender's field, and
the second call still returns `true` — `addEmailToBatch` neither keys by
the pair nor reports a duplicate. -/
theorem C1_duplicate_counterexample :
    (addEmailToBatch (addEmailToBatch [] ("a@x.com") sampleEntry).2
        ("a@x.com") sampleEntry).1 = true ∧
    bucketField (addEmailToBatch (addEmailToBatch [] ("a@x.com") sampleEntry).2
        ("a@x.com") sampleEntry).2 ("a@x.com") = [sampleEntry, sampleEntry] := by
  exact ⟨rfl, by decide⟩

/-- C1 (amended): `addEmailToBatch` stores entries under the field named by
`replyFrom` alone, appends unconditionally, and always returns `true`;
ingesting `k` identical messages leaves `k` copies in the bucket, not one. -/
theorem addEmailToBatch_appends_always_true (b : Bucket) (email : String)
    (e : BatchEntry) :
    (addEmailToBatch b email e).1 = true ∧
    bucketField (addEmailToBatch b email e).2 email = bucketField b email ++ [e] ∧
    ∀ k : Nat, bucketField (addEmailToBatchK email e k) email = List.replicate k e := by
  refine ⟨rfl, bucketField_bucketSet b email _, ?_⟩
  intro k
  induction k with
  | zero => rfl
  | succ k ih =>
    simp [addEmailToBatchK, addEmailToBatch, bucketField_bucketSet, ih,
      List.replicate_succ']

/-- C2 (counterexample): a validated, unscheduled message with its sender
neither in cooldown nor blocked is inserted into the hour bucket, yet the
ingest loop emits no queue deletion for it — the envelope stays in the
queue even after a successful insert. -/
theorem C2_insert_without_delete_counterexample :
    addMessageToBatch sampleIngestEnvAdmit sampleParse sampleMessage =
      [QueueAction.insertBatch ("a@x.com") sampleEntry] ∧
    QueueAction.deleteMsg ("rh-1") ∉
      addMessageToBatch sampleIngestEnvAdmit sampleParse sampleMessage := by
  exact ⟨by decide, by decide⟩

/-- C2 (amended): on the admission path (validated, not scheduled for the
future, sender neither in cooldown nor blocked) the ingest loop's whole
trace is the bucket insert — it never deletes the envelope, whether or not
the insert succeeded; deletion is deferred to the batch processor. -/
theorem addMessageToBatch_insert_keeps_envelope (env : IngestEnv)
    (parse : String → ParseOutcome) (m : SQSMessage) (r : WarmupRequest)
    (hp : parse m.Body = ParseOutcome.ok r)
    (hs : ∀ s, r.scheduledFor = some s → ¬(s ≠ 0 ∧ env.now < s))
    (hc : env.inCooldown r.replyFrom = false)
    (hb : env.blocked r.replyFrom = false) :
    addMessageToBatch env parse m =
      [QueueAction.insertBatch r.replyFrom
        (mkBatchEntry r m.ReceiptHandle env.now (getMessageReceiveCount m))] := by
  unfold addMessageToBatch
  rw [hp]
  dsimp only
  cases hsf : r.scheduledFor with
  | none => simp [admitMessage, hc, hb]
  | some s =>
    have hn := hs s hsf
    simp [hn, admitMessage, hc, hb]

/-- C2 (witness): the amended theorem evaluated on the sample admission. -/
theorem C2_insert_keeps_envelope_witness :
    addMessageToBatch sampleIngestEnvAdmit sampleParse sampleMessage =
      [QueueAction.insertBatch ("a@x.com") sampleEntry] :=
  addMessageToBatch_insert_keeps_envelope sampleIngestEnvAdmit sampleParse
    sampleMessage sampleRequest rfl
    (fun s h => by simp [sampleRequest] at h) rfl rfl

/-- C3 (code bug, evaluated at the failing input): when every SMTP attempt
rejects with a 535 authentication error, `sendEmail` stops after the first
attempt and returns `false` while its trace holds no cooldown or block
marking; and with every send failing, the batch loop still attempts the
sender's second entry instead of aborting. -/
theorem C3_auth_failure_no_marking_no_abort :
    sendEmailViaSMTP authOutcome ("b@y.com") =
      (false, [QueueAction.smtpSend ("b@y.com") 1]) ∧
    (processSender false { shouldContinue := true, reason := none }
        (fun _ => false) [sampleEntry, sampleEntry2]).1 =
      [QueueAction.attemptSend ("b@y.com"), QueueAction.attemptSend ("c@z.com")] := by
  exact ⟨by decide, by decide⟩

/-- C4 (counterexample): the spam folder holds an unseen message carrying
the tag and an unseen unrelated one; the run reports the tag in spam, yet
the matching message is still in the spam folder (the inbox stays empty —
nothing is moved), and the non-matching message is also marked read. -/
theorem C4_no_move_counterexample :
    (checkEmailInSpamRun sampleBox ("TAG42")).1 = true ∧
    (checkEmailInSpamRun sampleBox ("TAG42")).2.inbox = [] ∧
    (checkEmailInSpamRun sampleBox ("TAG42")).2.spam =
      [{ uid := 1, subject := "Warmup TAG42 hello", seen := true },
       { uid := 2, subject := "Unrelated offer", seen := true }] := by
  refine ⟨by decide, by decide, by decide⟩

/-- C4 (amended): whenever the spam search matches, the rescue leaves the
inbox untouched and every spam-folder message in place (UIDs unchanged),
and marks every unseen spam-folder message read — matching or not. -/
theorem checkEmailInSpam_marks_without_moving (box : Mailbox) (tag : String)
    (hne : spamSearch box tag ≠ []) :
    (checkEmailInSpamRun box tag).2.inbox = box.inbox ∧
    (checkEmailInSpamRun box tag).2.spam.map MailMessage.uid =
      box.spam.map MailMessage.uid ∧
    ((checkEmailInSpamRun box tag).2.spam.all (fun m => m.seen)) = true := by
  have hB : (spamSearch box tag).isEmpty = false := by
    cases h : spamSearch box tag with
    | nil => exact absurd h hne
    | cons a l => rfl
  have huid : ∀ x : MailMessage,
      (if !x.seen then { x with seen := true } else x).uid = x.uid := by
    intro x
    by_cases h : x.seen = true <;> simp [h]
  refine ⟨?_, ?_, ?_⟩
  · simp [checkEmailInSpamRun, hB, markAllEmailAsRead]
  · simp only [checkEmailInSpamRun, hB, Bool.false_eq_true, if_false,
      markAllEmailAsRead, List.map_map]
    simp only [List.map_inj_left, Function.comp]
    intro a _
    exact huid a
  · simp only [checkEmailInSpamRun, hB, Bool.false_eq_true, if_false,
      markAllEmailAsRead, List.all_eq_true]
    intro m hm
    simp only [List.mem_map] at hm
    obtain ⟨x, hx, rfl⟩ := hm
    by_cases h : x.seen = true <;> simp [h]

/-- C4 (witness): the amended theorem evaluated on the sample mailbox. -/
theorem C4_marks_without_moving_witness :
    spamSearch sampleBox ("TAG42") ≠ [] ∧
    ((checkEmailInSpamRun sampleBox ("TAG42")).2.inbox = sampleBox.inbox ∧
     (checkEmailInSpamRun sampleBox ("TAG42")).2.spam.map MailMessage.uid =
       sampleBox.spam.map MailMessage.uid ∧
     ((checkEmailInSpamRun sampleBox ("TAG42")).2.spam.all (fun m => m.seen)) = true) :=
  ⟨by decide, checkEmailInSpam_marks_without_moving sampleBox ("TAG42") (by decide)⟩

/-- C5 (code bug, evaluated at the failing input): an auth-classified error
caught by `CheckAndUpdateSpamInDb` yields the reason string "Authentication
failure", but the batch processor's case-sensitive guard
`includes("authentication failure")` does not match it, so the sender's
entries are neither deleted nor hidden and the sender is not marked
processed — no cleanup happens at all. -/
theorem C5_case_sensitive_guard_never_fires :
    CheckAndUpdateSpamInDb ("TAG42") (some ("a@x.com")) true
        (Except.error ("535-5.7.8 Username and password not accepted")) =
      { shouldContinue := false, reason := some ("Authentication failure") } ∧
    reasonMatchesAuth (some ("Authentication failure")) = false ∧
    processSender false
        { shouldContinue := false, reason := some ("Authentication failure") }
        (fun _ => false) [sampleEntry] = ([], false) := by
  refine ⟨by decide, by decide, by decide⟩

/-- C6: a validated, unscheduled envelope whose sender is in the cooldown
list is deleted when its receive count is at least 2 and hidden for 12
hours otherwise, and no bucket insert appears in the trace. -/
theorem C6_cooldown_admission (env : IngestEnv)
    (parse : String → ParseOutcome) (m : SQSMessage) (r : WarmupRequest)
    (hp : parse m.Body = ParseOutcome.ok r)
    (hs : ∀ s, r.scheduledFor = some s → ¬(s ≠ 0 ∧ env.now < s))
    (hc : env.inCooldown r.replyFrom = true) :
    addMessageToBatch env parse m =
      (if jsGe2 (getMessageReceiveCount m) then [QueueAction.deleteMsg m.ReceiptHandle]
       else [QueueAction.hide12h m.ReceiptHandle]) ∧
    ∀ email e, QueueAction.insertBatch email e ∉ addMessageToBatch env parse m := by
  have h := addMessageToBatch_cooldown_aux env parse m r hp hs hc
  refine ⟨h, ?_⟩
  intro email e hmem
  rw [h] at hmem
  cases hg : jsGe2 (getMessageReceiveCount m) <;> simp [hg] at hmem

/-- C6 (witness): on the sample message (receive count 1) with its sender
in cooldown, the ingest loop hides the envelope for 12 hours. -/
theorem C6_cooldown_admission_witness :
    addMessageToBatch cooldownEnv sampleParse sampleMessage =
      [QueueAction.hide12h ("rh-1")] := by
  rw [(C6_cooldown_admission cooldownEnv sampleParse sampleMessage sampleRequest
    rfl (fun s h => by simp [sampleRequest] at h) rfl).1]
  decide

/-- C7: an envelope scheduled strictly in the future is requeued with its
unmodified body and delay `min((scheduledFor - now) / 1000, 900)`, the
original is deleted once the requeue succeeded, and the delay never
exceeds 900 seconds. -/
theorem C7_scheduled_future_requeue (env : IngestEnv)
    (parse : String → ParseOutcome) (m : SQSMessage) (r : WarmupRequest)
    (s : Int)
    (hp : parse m.Body = ParseOutcome.ok r)
    (hsf : r.scheduledFor = some s)
    (h0 : 0 ≤ env.now)
    (hfut : env.now < s)
    (hreq : env.requeueOk = true) :
    addMessageToBatch env parse m =
      [QueueAction.requeue m.Body (min ((s - env.now) / 1000) 900),
       QueueAction.deleteMsg m.ReceiptHandle] ∧
    min ((s - env.now) / 1000) 900 ≤ 900 := by
  have hs0 : s ≠ 0 := by omega
  constructor
  · unfold addMessageToBatch
    rw [hp]
    dsimp only
    rw [hsf]
    simp only [delayMessageInQueueDelay]
    rw [if_pos ⟨hs0, hfut⟩, if_pos hreq]
    rw [min_assoc, min_self]
  · exact min_le_right _ _

/-- C7 (witness): scheduled 1 199 000 ms ahead, the copy is requeued with
the capped 900-second delay and the original deleted. -/
theorem C7_scheduled_future_requeue_witness :
    addMessageToBatch sampleIngestEnvAdmit schedParse sampleMessage =
      [QueueAction.requeue ("json1") 900, QueueAction.deleteMsg ("rh-1")] := by
  rw [(C7_scheduled_future_requeue sampleIngestEnvAdmit schedParse sampleMessage
    schedRequest 1200000 rfl rfl (by decide) (by decide) rfl).1]
  decide

/-- C8: on both dispatch paths the reply is built with `From = replyFrom`,
`To = to`, `Subject = "Re: " + originalSubject`, plain-text body equal to
the request body, and `In-Reply-To` / `References` equal to the inputs
(the Gmail path emits those two headers for non-empty values and uses the
credentials' `emailId` — the queried `replyFrom` — as `From`). -/
theorem C8_reply_headers («to» subject body inReplyTo referenceId replyFrom : String)
    (h1 : inReplyTo ≠ "") (h2 : referenceId ≠ "") (h3 : replyFrom ≠ "") :
    smtpMailOptions «to» subject body inReplyTo referenceId replyFrom =
      { «from» := replyFrom, «to» := «to», subject := "Re: " ++ subject,
        text := body, references := referenceId, inReplyTo := inReplyTo } ∧
    gmailFromEmail (some replyFrom) = replyFrom ∧
    gmailSendReplyLines replyFrom «to» subject body inReplyTo referenceId =
      [("To: " ++ «to»), ("From: " ++ replyFrom), ("Subject: Re: " ++ subject),
       ("In-Reply-To: " ++ inReplyTo), ("References: " ++ referenceId),
       ("Content-Type: text/plain; charset=utf-8"), (""), body] := by
  refine ⟨rfl, ?_, ?_⟩
  · simp [gmailFromEmail, jsOrString, h3]
  · simp [gmailSendReplyLines, h1, h2]

/-- C8 (witness): the header theorem evaluated on concrete inputs. -/
theorem C8_reply_headers_witness :
    smtpMailOptions ("b@y.com") ("Hello there") ("Nice to hear") ("<msg-1>")
        ("<ref-1>") ("a@x.com") =
      { «from» := "a@x.com", «to» := "b@y.com", subject := "Re: Hello there",
        text := "Nice to hear", references := "<ref-1>", inReplyTo := "<msg-1>" } ∧
    gmailFromEmail (some ("a@x.com")) = "a@x.com" ∧
    gmailSendReplyLines ("a@x.com") ("b@y.com") ("Hello there") ("Nice to hear")
        ("<msg-1>") ("<ref-1>") =
      [("To: b@y.com"), ("From: a@x.com"), ("Subject: Re: Hello there"),
       ("In-Reply-To: <msg-1>"), ("References: <ref-1>"),
       ("Content-Type: text/plain; charset=utf-8"), (""), ("Nice to hear")] := by
  have h := C8_reply_headers ("b@y.com") ("Hello there") ("Nice to hear")
    ("<msg-1>") ("<ref-1>") ("a@x.com") (by decide) (by decide) (by decide)
  exact ⟨h.1, h.2.1, by rw [h.2.2]; decide⟩

/-- C9: with the `ApproximateReceiveCount` attribute absent,
`getMessageReceiveCount` returns 0; at cooldown admission such an envelope
is hidden for 12 hours rather than deleted, and the batch processor's
auth-failure cleanup (`receiveCount || 1`) likewise hides rather than
deletes its entry. -/
theorem C9_missing_receive_count (env : IngestEnv)
    (parse : String → ParseOutcome) (m : SQSMessage) (r : WarmupRequest)
    (hattr : m.approximateReceiveCount = none)
    (hp : parse m.Body = ParseOutcome.ok r)
    (hs : ∀ s, r.scheduledFor = some s → ¬(s ≠ 0 ∧ env.now < s))
    (hc : env.inCooldown r.replyFrom = true) :
    getMessageReceiveCount m = JSNum.num 0 ∧
    addMessageToBatch env parse m = [QueueAction.hide12h m.ReceiptHandle] ∧
    authFailureEntryAction
        (mkBatchEntry r m.ReceiptHandle env.now (getMessageReceiveCount m)) =
      QueueAction.hide12h m.ReceiptHandle := by
  have h0 : getMessageReceiveCount m = JSNum.num 0 := by
    rw [getMessageReceiveCount, hattr]
    rfl
  refine ⟨h0, ?_, ?_⟩
  · rw [addMessageToBatch_cooldown_aux env parse m r hp hs hc, h0]
    rfl
  · rw [h0]
    rfl

/-- C9 (witness): a sample attribute-less message under cooldown is hidden,
and its batch entry's auth cleanup would hide it as well. -/
theorem C9_missing_receive_count_witness :
    getMessageReceiveCount sampleMessageNoAttr = JSNum.num 0 ∧
    addMessageToBatch cooldownEnv sampleParse sampleMessageNoAttr =
      [QueueAction.hide12h ("rh-2")] ∧
    authFailureEntryAction
        (mkBatchEntry sampleRequest ("rh-2") 1000
          (getMessageReceiveCount sampleMessageNoAttr)) =
      QueueAction.hide12h ("rh-2") :=
  C9_missing_receive_count cooldownEnv sampleParse sampleMessageNoAttr
    sampleRequest rfl rfl (fun s h => by simp [sampleRequest] at h) rfl

/-- C10 (counterexample): with connect, lock and search all succeeding but
the logout race losing to its 5-second watchdog, `checkEmailInSpam`
rejects with "Timed out" instead of resolving to a boolean — the `finally`
block awaits the race before its `return inSpam`. -/
theorem C10_logout_rejects_counterexample :
    checkEmailInSpamOutcome logoutTimeoutEnv = Except.error ("Timed out") := by
  rfl

/-- C10 (amended): whenever the logout race settles, `checkEmailInSpam`
resolves to a boolean for every combination of connect / lock / search
failures, and a connection (authentication) failure resolves to `false`
rather than propagating. -/
theorem C10_resolves_when_logout_ok (env : ImapRunEnv)
    (h : env.logoutOk = true) :
    resolvesToBool (checkEmailInSpamOutcome env) = true ∧
    (env.connectOk = false → checkEmailInSpamOutcome env = Except.ok false) := by
  constructor
  · simp [checkEmailInSpamOutcome, h, resolvesToBool]
  · intro hcon
    simp [checkEmailInSpamOutcome, h, hcon]

/-- C10 (witness): a run whose IMAP authentication fails at connect but
whose logout settles resolves to `ok false`. -/
theorem C10_resolves_witness :
    resolvesToBool (checkEmailInSpamOutcome connectFailEnv) = true ∧
    (connectFailEnv.connectOk = false →
      checkEmailInSpamOutcome connectFailEnv = Except.ok false) :=
  C10_resolves_when_logout_ok connectFailEnv rfl
